import Mathlib

/-!
Verification of the PokemonGallaecia gameplay scripts: a shallow embedding of
the login gate (src/rust/src/player.rs, src/rust/src/login_screen.rs) and of
the player movement / animation / interaction controllers
(src/rust/src/game/player.rs), with theorems settling the specification
claims about them.
-/

namespace PokemonGallaecia

/-! ## Login gate: Player and check_credentials (src/rust/src/player.rs) -/

/-- The credential record constructed on a successful login
(struct Player in src/rust/src/player.rs). The level field is a u8;
only the value 1 is ever stored, so Nat models it without overflow. -/
structure Player where
  username : String
  password : String
  level : Nat
deriving DecidableEq, Repr

/-- Player::create_new_player: the public constructor. -/
def create_new_player (username : String) (password : String) (level : Nat) : Player :=
  { username := username, password := password, level := level }

/-- The result of the Some/Some path of Player::check_credentials: the pair of
credential flags plus the console messages printed via godot_print. -/
structure CredentialsOutcome where
  flags : Bool × Bool
  logs : List String
deriving DecidableEq, Repr

/-- The first match of Player::check_credentials (the username arm), on a
present username: guards are tried in order (the literal comparisons with
"root" and "Root", then the empty-string informative message, then the
catch-all). Returns the flag value and the printed messages. -/
def username_check (usnm : String) : Bool × List String :=
  if usnm = "root" ∨ usnm = "Root" then (true, [])
  else if usnm = "" then (false, ["Provide an username"])
  else (false, [])

/-- The second match of Player::check_credentials (the password arm), on a
present password. -/
def password_check (pswd : String) : Bool × List String :=
  if pswd = "root" ∨ pswd = "Root" then (true, [])
  else if pswd = "" then (false, ["Provide a password"])
  else (false, [])

/-- Player::check_credentials. A None username or a None password hits the
panic arm of the corresponding match, aborting the process; the abort is
modelled by Option.none. On Some/Some inputs both matches run in order and
the tuple of flags is returned. -/
def check_credentials (username : Option String) (password : Option String) :
    Option CredentialsOutcome :=
  match username with
  | none => none
  | some usnm =>
    match password with
    | none => none
    | some pswd =>
      let u := username_check usnm
      let p := password_check pswd
      some { flags := (u.1, p.1), logs := u.2 ++ p.2 }

/-! ## Login screen (src/rust/src/login_screen.rs) -/

/-- The LoginScreen native class state: the optional logged player. -/
structure LoginScreenState where
  player : Option Player
deriving DecidableEq, Repr

/-- The observable effects of one press of the login button: the updated
screen state, whether utils::change_scene was invoked (the transition to
scenes::LEVEL_1), and the console messages printed. -/
structure LoginOutcome where
  state : LoginScreenState
  scene_changed : Bool
  logs : List String
deriving DecidableEq, Repr

/-- LoginScreen::_on_login_button_pressed, given the credentials retrieved
from the two LineEdit fields. Both credentials are wrapped in Some before
check_credentials is called; the match on the resulting flag pair either
constructs and stores a new Player (level 1) and changes scene, or only
prints a message. -/
def _on_login_button_pressed (st : LoginScreenState)
    (username : String) (password : String) : LoginOutcome :=
  match check_credentials (some username) (some password) with
  | none => { state := st, scene_changed := false, logs := [] }
  | some outcome =>
    match outcome.flags with
    | (true, true) =>
      let new_player := create_new_player username password 1
      { state := { player := some new_player },
        scene_changed := true,
        logs := outcome.logs }
    | (true, false) =>
      { state := st, scene_changed := false,
        logs := outcome.logs ++ ["Wrong password. Try again."] }
    | (false, _) =>
      { state := st, scene_changed := false,
        logs := outcome.logs ++ ["Wrong credentials. Try again."] }

/-- Lower-casing of an ASCII letter, used only to state the case-insensitive
comparison that the specification describes. -/
def lower_char (c : Char) : Char :=
  if c.isUpper then Char.ofNat (c.toNat + 32) else c

/-- The comparison the specification describes for the login gate: the two
strings are equal when compared case-insensitively. This definition follows
the words of the spec, to be compared with what check_credentials does. -/
def case_insensitive_eq (a : String) (b : String) : Prop :=
  a.data.map lower_char = b.data.map lower_char

instance (a b : String) : Decidable (case_insensitive_eq a b) := by
  unfold case_insensitive_eq
  infer_instance

/-! ## Game data model (src/rust/src/game/player.rs) -/

/-- enum PlayerStatus: the player behaviour state. -/
inductive PlayerStatus where
  | Idle
  | Walking
  | Interacting
deriving DecidableEq, Repr

/-- impl Default for PlayerStatus. -/
def PlayerStatus.default : PlayerStatus := PlayerStatus.Idle

/-- enum PlayerDirection: the facing of the sprite. -/
inductive PlayerDirection where
  | Upwards
  | Downwards
  | Left
  | Right
deriving DecidableEq, Repr

/-- impl Default for PlayerDirection. -/
def PlayerDirection.default : PlayerDirection := PlayerDirection.Downwards

/-- Modelled from the spec: the MenuStatus enum lives in the menu module,
which is outside the provided sources; only the Open and Closed variants are
referenced by the player controller. -/
inductive MenuStatus where
  | Open
  | Closed
deriving DecidableEq, Repr

/-- Modelled from the spec: the DialogueBoxStatus enum lives in the
dialogue_box module, which is outside the provided sources; the spec's
"inactive-dialogue precondition" uses its Active and Inactive variants. -/
inductive DialogueBoxStatus where
  | Active
  | Inactive
deriving DecidableEq, Repr

/-- The engine 2D vector. Its components are f32 in the engine; only sign
tests and assignments of the velocity constant occur in this code, so the
rational numbers model them faithfully. -/
structure Vector2 where
  x : ℚ
  y : ℚ
deriving DecidableEq, Repr

/-- The snapshot of the engine Input singleton that one physics frame reads:
the four directional action states and the two just-pressed edges. -/
structure InputState where
  left : Bool
  right : Bool
  up : Bool
  down : Bool
  interact_pressed : Bool
  menu_pressed : Bool
deriving DecidableEq, Repr

/-- The state fields of the PlayerCharacter native class (the engine-managed
signals map is omitted: it is never read or written by these methods). The
counter is an i32 in the source; only the increment is modelled, which no
claim takes near overflow, so Int models it. -/
structure PlayerCharacterState where
  player_status : PlayerStatus
  menu_status : MenuStatus
  dialogue_box_status : DialogueBoxStatus
  motion : Vector2
  current_position : Vector2
  counter : Int
deriving DecidableEq, Repr

/-- CharacterMovement::move_character for PlayerCharacter. The velocity
constant in_game_constant::VELOCITY comes from a consts module outside the
provided sources, so it is a parameter v here; the source assigns it (or its
negation) to one axis and zeroes the other, following the if / else-if
chain Left, Right, Up, Down, with an Idle fallback. -/
def move_character (v : ℚ) (st : PlayerCharacterState) (input : InputState) :
    PlayerCharacterState :=
  if input.left then
    { st with motion := { x := v * -1, y := 0 }, player_status := PlayerStatus.Walking }
  else if input.right then
    { st with motion := { x := v, y := 0 }, player_status := PlayerStatus.Walking }
  else if input.up then
    { st with motion := { x := 0, y := v * -1 }, player_status := PlayerStatus.Walking }
  else if input.down then
    { st with motion := { x := 0, y := v }, player_status := PlayerStatus.Walking }
  else
    { st with motion := { x := 0, y := 0 }, player_status := PlayerStatus.Idle }

/-- The spec's words for the movement policy: the four directional signals
are consulted in the priority order Left, Right, Up, Down and the first one
pressed wins. -/
def first_pressed_direction (input : InputState) : Option PlayerDirection :=
  [PlayerDirection.Left, PlayerDirection.Right,
   PlayerDirection.Upwards, PlayerDirection.Downwards].find? fun d =>
    match d with
    | PlayerDirection.Left => input.left
    | PlayerDirection.Right => input.right
    | PlayerDirection.Upwards => input.up
    | PlayerDirection.Downwards => input.down

/-- The spec's words for the velocity outcome: the winning direction
determines the velocity vector, absence of all four gives the zero vector. -/
def direction_velocity (v : ℚ) : Option PlayerDirection → Vector2
  | some PlayerDirection.Left => { x := -v, y := 0 }
  | some PlayerDirection.Right => { x := v, y := 0 }
  | some PlayerDirection.Upwards => { x := 0, y := -v }
  | some PlayerDirection.Downwards => { x := 0, y := v }
  | none => { x := 0, y := 0 }

/-- PlayerCharacter::new: the initial state built by the constructor (status
defaulted to Idle, menu Closed, dialogue box Inactive, zero vectors, zero
counter). -/
def PlayerCharacter_new : PlayerCharacterState :=
  { player_status := PlayerStatus.default,
    menu_status := MenuStatus.Closed,
    dialogue_box_status := DialogueBoxStatus.Inactive,
    motion := { x := 0, y := 0 },
    current_position := { x := 0, y := 0 },
    counter := 0 }

/-- A concrete input snapshot with every directional action pressed, used to
evaluate the theorems on an explicit input. -/
def all_pressed_input : InputState :=
  { left := true, right := true, up := true, down := true,
    interact_pressed := false, menu_pressed := false }

/-! ## Interaction gate and the physics frame (src/rust/src/game/player.rs) -/

/-- The body colliding with the player, as the interaction code observes it:
a node with a list of child node names (Node::has_node is a membership
test on them). -/
structure CollisionBody where
  children : List String
deriving DecidableEq, Repr

/-- Node::has_node on the colliding body. -/
def has_node (body : CollisionBody) (name : String) : Bool :=
  body.children.contains name

/-- PlayerCharacter::is_valid_interaction: true exactly when the colliding
body has an "Interact" child node and the dialogue box status is Inactive
(the if returns true, the else returns false). -/
def is_valid_interaction (st : PlayerCharacterState) (coll_body : CollisionBody) : Bool :=
  if has_node coll_body "Interact"
      ∧ st.dialogue_box_status = DialogueBoxStatus.Inactive then
    true
  else false

/-- PlayerCharacter::interact, returning whether the player_interacting
signal was emitted: on Some collision data the colliding body is retrieved
and the signal fires when is_valid_interaction holds; on None nothing
happens. -/
def interact (st : PlayerCharacterState) (collision_data : Option CollisionBody) :
    Bool :=
  match collision_data with
  | some collision_data => is_valid_interaction st collision_data
  | none => false

/-- PlayerCharacter::handle_interaction: the external notification that
starts or ends an interaction, matched on the signal's extra data string. -/
def handle_interaction (st : PlayerCharacterState) (signal_info : String) :
    PlayerCharacterState :=
  if signal_info = "on_dialogue" then
    { st with player_status := PlayerStatus.Interacting,
              motion := { x := 0, y := 0 },
              dialogue_box_status := DialogueBoxStatus.Active }
  else if signal_info = "menu_active" then
    { st with player_status := PlayerStatus.Interacting,
              motion := { x := 0, y := 0 },
              menu_status := MenuStatus.Open }
  else
    { st with player_status := PlayerStatus.default,
              dialogue_box_status := DialogueBoxStatus.Inactive,
              menu_status := MenuStatus.Closed }

/-- The observable outcome of one PlayerCharacter::_physics_process frame:
the updated state, the motion payload of the always-emitted animate signal,
and whether the player_interacting and player_position signals fired. -/
structure FrameOutcome where
  state : PlayerCharacterState
  animate_motion : Vector2
  player_interacting_emitted : Bool
  player_position_emitted : Bool
deriving DecidableEq, Repr

/-- PlayerCharacter::_physics_process. The engine supplies the input
snapshot, the collision result of move_and_collide and the body's global
position after the move (engine_position). The animate signal always fires
with the current motion; everything else is guarded by the status not being
Interacting: move_character runs, the position and counter update, the
Interact edge may call interact, and the Menu edge emits player_position. -/
def _physics_process (v : ℚ) (st : PlayerCharacterState) (input : InputState)
    (collision : Option CollisionBody) (engine_position : Vector2) : FrameOutcome :=
  let animate_motion := st.motion
  if st.player_status ≠ PlayerStatus.Interacting then
    let st1 := move_character v st input
    let st2 := { st1 with current_position := engine_position,
                          counter := st1.counter + 1 }
    let interacting_emitted :=
      if input.interact_pressed then
        if st2.player_status ≠ PlayerStatus.Interacting then
          interact st2 collision
        else false
      else false
    { state := st2,
      animate_motion := animate_motion,
      player_interacting_emitted := interacting_emitted,
      player_position_emitted := input.menu_pressed }
  else
    { state := st,
      animate_motion := animate_motion,
      player_interacting_emitted := false,
      player_position_emitted := false }

/-- A concrete state whose status is Interacting, used to evaluate the
frame-inertness theorem on an explicit input. -/
def interacting_state : PlayerCharacterState :=
  { PlayerCharacter_new with player_status := PlayerStatus.Interacting }

/-! ## Sprite animation (struct PlayerAnimation in src/rust/src/game/player.rs) -/

/-- The state fields of the PlayerAnimation native class. -/
structure PlayerAnimationState where
  current_player_motion : PlayerStatus
  current_player_direction : PlayerDirection
  idle_player_direction : PlayerDirection
deriving DecidableEq, Repr

/-- The outcome of one animation callback: the updated state and the clip
passed to AnimatedSprite::play, when any. -/
structure AnimationOutcome where
  state : PlayerAnimationState
  played : Option String
deriving DecidableEq, Repr

/-- The idle-clip selection match on the stored idle facing, as written in
both PlayerAnimation::_ready and PlayerAnimation::_on_player_animate. -/
def idle_animation : PlayerDirection → String
  | PlayerDirection.Downwards => "idle front"
  | PlayerDirection.Upwards => "idle back"
  | PlayerDirection.Left => "idle left"
  | PlayerDirection.Right => "idle right"

/-- PlayerAnimation::_on_player_animate: the match on the received motion
vector picks the direction by component sign in the written guard order
(x positive, x negative, y negative, y positive, catch-all), then the
if / else-if chain plays the clip and, on a walking direction, stores it as
the idle facing. -/
def _on_player_animate (st : PlayerAnimationState) (_motion : Vector2) :
    AnimationOutcome :=
  let st1 :=
    if _motion.x > 0 then
      { st with current_player_direction := PlayerDirection.Right,
                current_player_motion := PlayerStatus.Walking }
    else if _motion.x < 0 then
      { st with current_player_direction := PlayerDirection.Left,
                current_player_motion := PlayerStatus.Walking }
    else if _motion.y < 0 then
      { st with current_player_direction := PlayerDirection.Upwards,
                current_player_motion := PlayerStatus.Walking }
    else if _motion.y > 0 then
      { st with current_player_direction := PlayerDirection.Downwards,
                current_player_motion := PlayerStatus.Walking }
    else
      { st with current_player_motion := PlayerStatus.Idle }
  if st1.current_player_motion = PlayerStatus.Idle then
    { state := st1, played := some (idle_animation st1.idle_player_direction) }
  else if st1.current_player_direction = PlayerDirection.Right then
    { state := { st1 with idle_player_direction := PlayerDirection.Right },
      played := some "walk right" }
  else if st1.current_player_direction = PlayerDirection.Left then
    { state := { st1 with idle_player_direction := PlayerDirection.Left },
      played := some "walk left" }
  else if st1.current_player_direction = PlayerDirection.Downwards then
    { state := { st1 with idle_player_direction := PlayerDirection.Downwards },
      played := some "walk downwards" }
  else if st1.current_player_direction = PlayerDirection.Upwards then
    { state := { st1 with idle_player_direction := PlayerDirection.Upwards },
      played := some "walk upwards" }
  else
    { state := st1, played := none }

/-- The spec's words for the animation policy: the direction is selected by
the sign of the components in the fixed check order x positive (Right),
x negative (Left), y negative (Upwards), y positive (Downwards), all
remaining vectors being idle. -/
def animation_direction (motion : Vector2) : Option PlayerDirection :=
  if motion.x > 0 then some PlayerDirection.Right
  else if motion.x < 0 then some PlayerDirection.Left
  else if motion.y < 0 then some PlayerDirection.Upwards
  else if motion.y > 0 then some PlayerDirection.Downwards
  else none

/-! ## Serialization of PlayerDirection (src/rust/src/game/player.rs) -/

/-- A serialized unit enum variant, as serde's serialize_unit_variant
records it: the enum name, the variant index and the variant name. -/
structure SerializedVariant where
  enum_name : String
  variant_index : Nat
  variant_name : String
deriving DecidableEq, Repr

/-- impl Serialize for PlayerDirection: the hand-written match calls
serialize_unit_variant with the enum name "PlayerDirection" and the
index / name pairs 0 "Upwards", 1 "Downwards", 2 "Left", 3 "Right". -/
def serialize_player_direction : PlayerDirection → SerializedVariant
  | PlayerDirection.Upwards =>
    { enum_name := "PlayerDirection", variant_index := 0, variant_name := "Upwards" }
  | PlayerDirection.Downwards =>
    { enum_name := "PlayerDirection", variant_index := 1, variant_name := "Downwards" }
  | PlayerDirection.Left =>
    { enum_name := "PlayerDirection", variant_index := 2, variant_name := "Left" }
  | PlayerDirection.Right =>
    { enum_name := "PlayerDirection", variant_index := 3, variant_name := "Right" }

/-- The derived Deserialize for PlayerDirection when the format identifies a
unit variant by name: the derive on the enum declaration accepts exactly the
declared variant names Upwards, Downwards, Left, Right and rejects anything
else. -/
def deserialize_player_direction (v : SerializedVariant) : Option PlayerDirection :=
  match v.variant_name with
  | "Upwards" => some PlayerDirection.Upwards
  | "Downwards" => some PlayerDirection.Downwards
  | "Left" => some PlayerDirection.Left
  | "Right" => some PlayerDirection.Right
  | _ => none

/-- The derived Deserialize for PlayerDirection when the format identifies a
unit variant by index: indices follow the declaration order Upwards 0,
Downwards 1, Left 2, Right 3. -/
def deserialize_player_direction_by_index (i : Nat) : Option PlayerDirection :=
  match i with
  | 0 => some PlayerDirection.Upwards
  | 1 => some PlayerDirection.Downwards
  | 2 => some PlayerDirection.Left
  | 3 => some PlayerDirection.Right
  | _ => none

end PokemonGallaecia

namespace PokemonGallaecia

/-! ## Theorems about the login gate -/

/-- Claim C1, counterexample: the username "ROOT" and the password "root" both
case-insensitively equal "root", yet check_credentials does not return the
(true, true) flag pair, so login as claimed would succeed here but the code
rejects it. -/
theorem C1_counterexample :
    case_insensitive_eq "ROOT" "root"
    ∧ case_insensitive_eq "root" "root"
    ∧ (check_credentials (some "ROOT") (some "root")).map CredentialsOutcome.flags
        ≠ some (true, true) := by
  refine ⟨by decide, by decide, by decide⟩

/-- The username flag computed by check_credentials is exactly the test
against the two accepted spellings. -/
theorem username_check_fst (u : String) :
    (username_check u).1 = decide (u = "root" ∨ u = "Root") := by
  unfold username_check
  split_ifs with h1 h2 <;> simp [h1]

/-- The password flag computed by check_credentials is exactly the test
against the two accepted spellings. -/
theorem password_check_fst (p : String) :
    (password_check p).1 = decide (p = "root" ∨ p = "Root") := by
  unfold password_check
  split_ifs with h1 h2 <;> simp [h1]

/-- Claim C1 (amended): login succeeds if and only if the username and the
password are each exactly the string "root" or the string "Root": for every
pair of input strings, check_credentials returns the (true, true) flag pair
exactly when both strings are one of those two spellings, and
_on_login_button_pressed constructs and stores a Player object exactly in
that case (otherwise the stored player is unchanged). -/
theorem login_succeeds_iff_exact_root (u p : String) (st : LoginScreenState) :
    ((check_credentials (some u) (some p)).map CredentialsOutcome.flags = some (true, true)
      ↔ ((u = "root" ∨ u = "Root") ∧ (p = "root" ∨ p = "Root")))
    ∧ (_on_login_button_pressed st u p).state.player =
        (if (u = "root" ∨ u = "Root") ∧ (p = "root" ∨ p = "Root")
         then some (create_new_player u p 1) else st.player) := by
  constructor
  · simp only [check_credentials, Option.map_some, username_check_fst, password_check_fst]
    by_cases hu : u = "root" ∨ u = "Root" <;> by_cases hp : p = "root" ∨ p = "Root" <;>
      simp [hu, hp]
  · simp only [_on_login_button_pressed, check_credentials,
      username_check_fst, password_check_fst]
    by_cases hu : u = "root" ∨ u = "Root" <;> by_cases hp : p = "root" ∨ p = "Root" <;>
      simp [hu, hp]

/-- Claim C6: check_credentials aborts (modelled as Option.none) exactly when
the username argument is None or the password argument is None; on every pair
of Some inputs it returns normally (a Some result). -/
theorem check_credentials_panics_iff_none (u p : Option String) :
    check_credentials u p = none ↔ (u = none ∨ p = none) := by
  cases u <;> cases p <;> simp [check_credentials]

/-- Claim C7: on a failed login attempt (flag pair other than (true, true)),
_on_login_button_pressed leaves the stored player unchanged, triggers no
scene transition, and only prints a message (the log list is nonempty and is
its only effect). -/
theorem failed_login_only_logs (st : LoginScreenState) (u p : String)
    (h : (check_credentials (some u) (some p)).map CredentialsOutcome.flags
          ≠ some (true, true)) :
    (_on_login_button_pressed st u p).state = st
    ∧ (_on_login_button_pressed st u p).scene_changed = false
    ∧ (_on_login_button_pressed st u p).logs ≠ [] := by
  simp only [check_credentials, Option.map_some, username_check_fst,
    password_check_fst] at h
  simp only [_on_login_button_pressed, check_credentials,
    username_check_fst, password_check_fst]
  by_cases hu : u = "root" ∨ u = "Root" <;> by_cases hp : p = "root" ∨ p = "Root" <;>
    simp_all

/-- Witness for C7 at the concrete failed attempt username "admin",
password "root". -/
theorem failed_login_only_logs_witness :
    (_on_login_button_pressed { player := none } "admin" "root").state = { player := none }
    ∧ (_on_login_button_pressed { player := none } "admin" "root").scene_changed = false
    ∧ (_on_login_button_pressed { player := none } "admin" "root").logs ≠ [] :=
  failed_login_only_logs { player := none } "admin" "root" (by decide)

/-! ## Theorems about the movement resolver -/

/-- Claim C2: for every combination of the four directional inputs,
move_character resolves exactly one outcome following the priority order
Left, Right, Up, Down: the first pressed direction in that order determines
the velocity vector and sets the status to Walking; when none of the four is
pressed the velocity is the zero vector and the status is Idle. Stated
against the spec-level priority policy first_pressed_direction. -/
theorem move_character_follows_priority (v : ℚ) (st : PlayerCharacterState)
    (input : InputState) :
    (move_character v st input).motion
        = direction_velocity v (first_pressed_direction input)
    ∧ (move_character v st input).player_status
        = (if (first_pressed_direction input).isSome
           then PlayerStatus.Walking else PlayerStatus.Idle) := by
  rcases input with ⟨l, r, u, d, i, m⟩
  cases l <;> cases r <;> cases u <;> cases d <;>
    simp [move_character, first_pressed_direction, direction_velocity,
      List.find?, Vector2.mk.injEq]

/-- Claim C9: after every call to move_character the motion vector is
axis-aligned (the product of its components is zero), the status is Walking
exactly when the motion vector is nonzero and Idle exactly when it is the
zero vector (given a nonzero velocity constant), and the status is never
Interacting. -/
theorem move_character_motion_invariants (v : ℚ) (st : PlayerCharacterState)
    (input : InputState) (hv : v ≠ 0) :
    (move_character v st input).motion.x * (move_character v st input).motion.y = 0
    ∧ ((move_character v st input).player_status = PlayerStatus.Walking
        ↔ (move_character v st input).motion ≠ { x := 0, y := 0 })
    ∧ ((move_character v st input).player_status = PlayerStatus.Idle
        ↔ (move_character v st input).motion = { x := 0, y := 0 })
    ∧ (move_character v st input).player_status ≠ PlayerStatus.Interacting := by
  rcases input with ⟨l, r, u, d, i, m⟩
  cases l <;> cases r <;> cases u <;> cases d <;>
    simp [move_character, Vector2.mk.injEq, hv]

/-- Witness for C9 at velocity 200, the all-pressed input and the initial
constructor state. -/
theorem move_character_motion_invariants_witness :
    (200 : ℚ) ≠ 0
    ∧ ((move_character 200 PlayerCharacter_new all_pressed_input).motion.x
        * (move_character 200 PlayerCharacter_new all_pressed_input).motion.y = 0
      ∧ ((move_character 200 PlayerCharacter_new all_pressed_input).player_status
            = PlayerStatus.Walking
          ↔ (move_character 200 PlayerCharacter_new all_pressed_input).motion
            ≠ { x := 0, y := 0 })
      ∧ ((move_character 200 PlayerCharacter_new all_pressed_input).player_status
            = PlayerStatus.Idle
          ↔ (move_character 200 PlayerCharacter_new all_pressed_input).motion
            = { x := 0, y := 0 })
      ∧ (move_character 200 PlayerCharacter_new all_pressed_input).player_status
          ≠ PlayerStatus.Interacting) :=
  ⟨by decide,
   move_character_motion_invariants 200 PlayerCharacter_new all_pressed_input
     (by decide)⟩

/-! ## Theorems about the interaction gate and the physics frame -/

/-- Claim C3: on an Interact key edge with a Some collision, interact emits
the player_interacting notification if and only if the colliding body has a
child node named "Interact" and the dialogue box status is Inactive. -/
theorem interact_emits_iff_valid (st : PlayerCharacterState) (body : CollisionBody) :
    interact st (some body) = true
      ↔ (has_node body "Interact" = true
          ∧ st.dialogue_box_status = DialogueBoxStatus.Inactive) := by
  simp [interact, is_valid_interaction]

/-- Claim C8: while the player status is Interacting, _physics_process
ignores all movement, Interact and Menu input: the state (motion vector,
current_position, counter and player_status included) is returned unchanged
and neither the player_interacting nor the player_position signal fires; and
the status reverts from Interacting through handle_interaction, whose
signal data other than "on_dialogue" and "menu_active" resets the status
away from Interacting. -/
theorem interacting_frame_is_inert (v : ℚ) (st : PlayerCharacterState)
    (input : InputState) (collision : Option CollisionBody)
    (engine_position : Vector2) (info : String)
    (h : st.player_status = PlayerStatus.Interacting)
    (h1 : info ≠ "on_dialogue") (h2 : info ≠ "menu_active") :
    (_physics_process v st input collision engine_position).state = st
    ∧ (_physics_process v st input collision engine_position).player_interacting_emitted
        = false
    ∧ (_physics_process v st input collision engine_position).player_position_emitted
        = false
    ∧ (handle_interaction st info).player_status ≠ PlayerStatus.Interacting := by
  refine ⟨?_, ?_, ?_, ?_⟩ <;>
    simp [_physics_process, handle_interaction, h, h1, h2, PlayerStatus.default]

/-- Witness for C8 at the initial state switched to Interacting, the
all-pressed input, no collision, the origin position and the signal data
"end_of_dialogue". -/
theorem interacting_frame_is_inert_witness :
    interacting_state.player_status = PlayerStatus.Interacting
    ∧ ("end_of_dialogue" : String) ≠ "on_dialogue"
    ∧ ("end_of_dialogue" : String) ≠ "menu_active"
    ∧ ((_physics_process 200 interacting_state all_pressed_input none
          { x := 0, y := 0 }).state = interacting_state
      ∧ (_physics_process 200 interacting_state all_pressed_input none
          { x := 0, y := 0 }).player_interacting_emitted = false
      ∧ (_physics_process 200 interacting_state all_pressed_input none
          { x := 0, y := 0 }).player_position_emitted = false
      ∧ (handle_interaction interacting_state "end_of_dialogue").player_status
          ≠ PlayerStatus.Interacting) :=
  ⟨by decide, by decide, by decide,
   interacting_frame_is_inert 200 interacting_state all_pressed_input none
     { x := 0, y := 0 } "end_of_dialogue" (by decide) (by decide) (by decide)⟩

/-! ## Theorems about the animation selector -/

/-- Claim C4: for every motion vector received by _on_player_animate, the
direction is selected by the sign of the components in the fixed check order
x positive (Right), x negative (Left), y negative (Upwards), y positive
(Downwards), all remaining vectors being treated as idle; and whenever a
nonzero direction is selected (Walking) that direction is stored as the idle
facing used for subsequent idle animations. -/
theorem animate_selects_direction_by_sign (st : PlayerAnimationState)
    (motion : Vector2) :
    (match animation_direction motion with
     | some d =>
        (_on_player_animate st motion).state.current_player_direction = d
        ∧ (_on_player_animate st motion).state.current_player_motion
            = PlayerStatus.Walking
        ∧ (_on_player_animate st motion).state.idle_player_direction = d
     | none =>
        (_on_player_animate st motion).state.current_player_motion
            = PlayerStatus.Idle
        ∧ (_on_player_animate st motion).state.idle_player_direction
            = st.idle_player_direction) := by
  by_cases hx1 : motion.x > 0 <;> by_cases hx2 : motion.x < 0 <;>
    by_cases hy1 : motion.y < 0 <;> by_cases hy2 : motion.y > 0 <;>
      simp [_on_player_animate, animation_direction, hx1, hx2, hy1, hy2]

/-- Claim C5: for every prior animation state, a zero motion vector sets the
current motion to Idle, plays the idle clip of the stored idle facing, and
leaves the idle facing unchanged. -/
theorem animate_zero_motion_idles (st : PlayerAnimationState) :
    (_on_player_animate st { x := 0, y := 0 }).state.current_player_motion
        = PlayerStatus.Idle
    ∧ (_on_player_animate st { x := 0, y := 0 }).state.idle_player_direction
        = st.idle_player_direction
    ∧ (_on_player_animate st { x := 0, y := 0 }).played
        = some (idle_animation st.idle_player_direction) := by
  simp [_on_player_animate]

/-! ## Theorems about PlayerDirection serialization -/

/-- Claim C10: serializing any PlayerDirection value with the hand-written
Serialize implementation and deserializing with the derived Deserialize
implementation (whether the format identifies the variant by name or by
index) yields the original value. -/
theorem player_direction_serde_round_trip (d : PlayerDirection) :
    deserialize_player_direction (serialize_player_direction d) = some d
    ∧ deserialize_player_direction_by_index
        (serialize_player_direction d).variant_index = some d := by
  cases d <;> exact ⟨rfl, rfl⟩

end PokemonGallaecia
